import Mathlib

/-!
Verification of the session/result-cache state machine of the
SmartLegalExplainer repository (src/app.py), shallowly embedded in Lean.

The Streamlit session state keys initialised in app.py (lines 213-235)
become the fields of `SessionState`; the upload handler (lines 243-302),
the clear-button handler (lines 317-338), and the per-feature generate
buttons (lines 341 onward) become pure transition functions.  External
collaborators (text extractor, OpenAI engine) are passed in as explicit
outcome values, as the spec treats them as black boxes.
-/

namespace SmartLegalExplainer

/-- The per-session mutable state of the app: `st.session_state.full_text`,
`st.session_state.uploaded_file_name`, the twelve `*_result` cache slots and
the three input-widget keys, exactly as initialised in app.py lines 213-235. -/
structure SessionState where
  full_text : String
  uploaded_file_name : Option String
  summary_result : String
  takeaways_result : String
  qa_answer_result : String
  clause_explanation_result : String
  entities_result : String
  obligations_rights_result : String
  glossary_result : String
  outline_result : String
  risk_opportunity_result : String
  comparison_result : String
  jurisdiction_result : String
  sentiment_result : String
  q_a_input_tab : String
  clause_select_tab : String
  compare_input_tab : String
deriving DecidableEq, Repr

/-- The initial session state (app.py lines 213-235: every key starts as the
empty string, the file name as `None`). -/
def initialState : SessionState where
  full_text := ""
  uploaded_file_name := none
  summary_result := ""
  takeaways_result := ""
  qa_answer_result := ""
  clause_explanation_result := ""
  entities_result := ""
  obligations_rights_result := ""
  glossary_result := ""
  outline_result := ""
  risk_opportunity_result := ""
  comparison_result := ""
  jurisdiction_result := ""
  sentiment_result := ""
  q_a_input_tab := ""
  clause_select_tab := ""
  compare_input_tab := ""

/-- The twelve analysis features of the catalog, one per `*_result` cache
slot of the session state. -/
inductive FeatureId where
  | executiveSummary
  | keyTakeaways
  | qaAnswer
  | clauseExplanation
  | entityExtraction
  | obligationsRights
  | glossary
  | outline
  | riskOpportunity
  | documentComparison
  | jurisdictionAnalysis
  | sentimentAnalysis
deriving DecidableEq, Repr

/-- Read the cache slot of a feature (`st.session_state.<x>_result`). -/
def getResult (s : SessionState) : FeatureId → String
  | .executiveSummary => s.summary_result
  | .keyTakeaways => s.takeaways_result
  | .qaAnswer => s.qa_answer_result
  | .clauseExplanation => s.clause_explanation_result
  | .entityExtraction => s.entities_result
  | .obligationsRights => s.obligations_rights_result
  | .glossary => s.glossary_result
  | .outline => s.outline_result
  | .riskOpportunity => s.risk_opportunity_result
  | .documentComparison => s.comparison_result
  | .jurisdictionAnalysis => s.jurisdiction_result
  | .sentimentAnalysis => s.sentiment_result

/-- Write the cache slot of a feature
(`st.session_state.<x>_result = v`). -/
def setResult (s : SessionState) (fid : FeatureId) (v : String) : SessionState :=
  match fid with
  | .executiveSummary => { s with summary_result := v }
  | .keyTakeaways => { s with takeaways_result := v }
  | .qaAnswer => { s with qa_answer_result := v }
  | .clauseExplanation => { s with clause_explanation_result := v }
  | .entityExtraction => { s with entities_result := v }
  | .obligationsRights => { s with obligations_rights_result := v }
  | .glossary => { s with glossary_result := v }
  | .outline => { s with outline_result := v }
  | .riskOpportunity => { s with risk_opportunity_result := v }
  | .documentComparison => { s with comparison_result := v }
  | .jurisdictionAnalysis => { s with jurisdiction_result := v }
  | .sentimentAnalysis => { s with sentiment_result := v }

/-- `LoadDocument`, from the upload handler in app.py lines 243-302.
`extracted` is the text extractor's outcome (`none` = the extraction
attempt failed, in which case `processed_text` keeps its initial `""`).
The guard is the source condition
`uploaded_file_name is None or uploaded_file_name != uploaded_file.name`;
when it holds, the handler stores the new name and text and resets every
result slot and every input key to the empty string; otherwise the script
run leaves the session state untouched. -/
def loadDocument (s : SessionState) (name : String) (extracted : Option String) :
    SessionState :=
  if s.uploaded_file_name = none ∨ s.uploaded_file_name ≠ some name then
    { s with
      uploaded_file_name := some name
      full_text := extracted.getD ""
      summary_result := ""
      takeaways_result := ""
      qa_answer_result := ""
      clause_explanation_result := ""
      entities_result := ""
      obligations_rights_result := ""
      glossary_result := ""
      outline_result := ""
      risk_opportunity_result := ""
      comparison_result := ""
      jurisdiction_result := ""
      sentiment_result := ""
      q_a_input_tab := ""
      clause_select_tab := ""
      compare_input_tab := "" }
  else s

/-- `ClearDocument`, from the clear-button handler in app.py lines 317-338:
every field of the session state is reset to its initial value,
unconditionally. -/
def clearDocument (_s : SessionState) : SessionState :=
  { full_text := ""
    uploaded_file_name := none
    summary_result := ""
    takeaways_result := ""
    qa_answer_result := ""
    clause_explanation_result := ""
    entities_result := ""
    obligations_rights_result := ""
    glossary_result := ""
    outline_result := ""
    risk_opportunity_result := ""
    comparison_result := ""
    jurisdiction_result := ""
    sentiment_result := ""
    q_a_input_tab := ""
    clause_select_tab := ""
    compare_input_tab := "" }

/-- Python's `str.strip()`, embedded on the character list of a string:
drop leading and trailing whitespace.  (`String.trim` is extensionally the
same operation but is not kernel-computable, so the embedding carries its
own executable definition.) -/
def pyStrip (l : List Char) : List Char :=
  ((l.dropWhile Char.isWhitespace).reverse.dropWhile Char.isWhitespace).reverse

/-- Python's `str.strip()` as a `String` operation. -/
def pyStripString (s : String) : String :=
  String.mk (pyStrip s.data)

/-- Python's `s.split("\n")`, embedded on the character list of a string:
`""` splits to `[""]`, separators are not kept, adjacent separators yield
empty segments. -/
def splitLines : List Char → List (List Char)
  | [] => [[]]
  | c :: cs =>
    if c = '\n' then [] :: splitLines cs
    else
      match splitLines cs with
      | [] => [[c]]
      | h :: t => (c :: h) :: t

/-- The clause candidates offered by the clause-explanation tab
(app.py line 421): the comprehension
`[p.strip() for p in full_text.split("\n") if len(p.strip()) > 50]`. -/
def clauses (full_text : String) : List String :=
  ((splitLines full_text.data).filter (fun p => 50 < (pyStrip p).length)).map
    (fun p => String.mk (pyStrip p))

/-- The per-feature widget gate under which a generate button can actually
fire: the Q&A button is conjoined with a non-empty question
(app.py line 362, `if st.button(...) and user_question`); the
clause-explanation button only exists when the clause candidate list is
non-empty (app.py lines 422-439); the document-comparison block is cut off
in the available source, its gate is modelled from the spec
(`requiresInput=true`: a non-empty comparison text); every other feature
button is unguarded. -/
def featureGate (s : SessionState) : FeatureId → Bool
  | .qaAnswer => s.q_a_input_tab != ""
  | .clauseExplanation => !(clauses s.full_text).isEmpty
  | .documentComparison => s.compare_input_tab != ""
  | _ => true

/-- Errors the transitions signal, per the spec's taxonomy (§7). -/
inductive RunError where
  | preconditionViolation
  | engineFailed (detail : String)
deriving DecidableEq, Repr

/-- `RunFeature`, from the per-feature generate-button blocks of app.py
(lines 341 onward).  Every block sits under the `if full_text:` gate
(line 341), so with no document loaded no feature can run: this is the
spec's precondition violation.  The per-feature widget gate (`featureGate`)
likewise blocks the run without touching state.  Otherwise the block calls
the engine; `engine` is its outcome.  On success the block stores
`response...content.strip()` in the feature's slot; on any error it stores
`""` in that slot (the uniform `# Clear result on error` branches, e.g.
lines 391-397 and 464-470).  The comparison / jurisdiction / sentiment
blocks are cut off in the available source; they are modelled from the
spec's uniform per-feature policy, which matches every block that is
present. -/
def runFeature (s : SessionState) (fid : FeatureId) (engine : Except String String) :
    SessionState × Option RunError :=
  if s.full_text = "" then
    (s, some .preconditionViolation)
  else if featureGate s fid then
    match engine with
    | .ok out => (setResult s fid (pyStripString out), none)
    | .error detail => (setResult s fid "", some (.engineFailed detail))
  else
    (s, some .preconditionViolation)

/-! ### The txt exporter

The txt download path (e.g. app.py lines 403-409) hands the cached result
string verbatim to the download widget (`data=st.session_state...`), which
serves it as its UTF-8 bytes; the title is not used by the txt path.  The
byte encoding and a standard UTF-8 decoder are modelled explicitly so the
round trip is a real statement about the produced bytes. -/

/-- UTF-8 encoding of one code point as a list of byte values. -/
def utf8EncodeCharNat (n : Nat) : List Nat :=
  if n < 128 then [n]
  else if n < 2048 then [192 + n / 64, 128 + n % 64]
  else if n < 65536 then [224 + n / 4096, 128 + n / 64 % 64, 128 + n % 64]
  else [240 + n / 262144, 128 + n / 4096 % 64, 128 + n / 64 % 64, 128 + n % 64]

/-- Read one UTF-8 continuation byte. -/
def utf8Take1 : List Nat → Option (Nat × List Nat)
  | b1 :: bs => if 128 ≤ b1 ∧ b1 < 192 then some (b1, bs) else none
  | [] => none

/-- Read two UTF-8 continuation bytes. -/
def utf8Take2 : List Nat → Option (Nat × Nat × List Nat)
  | b1 :: bs => if 128 ≤ b1 ∧ b1 < 192 then (utf8Take1 bs).map (fun p => (b1, p)) else none
  | [] => none

/-- Read three UTF-8 continuation bytes. -/
def utf8Take3 : List Nat → Option (Nat × Nat × Nat × List Nat)
  | b1 :: bs => if 128 ≤ b1 ∧ b1 < 192 then (utf8Take2 bs).map (fun p => (b1, p)) else none
  | [] => none

/-- Fuelled UTF-8 decoder: reads one scalar value per unit of fuel,
rejecting stray continuation bytes, overlong encodings, surrogates and
out-of-range values.  One unit of fuel per decoded character suffices
because every character consumes at least one byte. -/
def utf8DecodeAux : Nat → List Nat → Option (List Char)
  | _, [] => some []
  | 0, _ :: _ => none
  | fuel + 1, b :: bs =>
    if b < 128 then
      (utf8DecodeAux fuel bs).map (fun cs => Char.ofNat b :: cs)
    else if b < 192 then none
    else if b < 224 then
      (utf8Take1 bs).bind (fun p =>
        let n := (b - 192) * 64 + (p.1 - 128)
        if 128 ≤ n then (utf8DecodeAux fuel p.2).map (fun cs => Char.ofNat n :: cs)
        else none)
    else if b < 240 then
      (utf8Take2 bs).bind (fun p =>
        let n := (b - 224) * 4096 + (p.1 - 128) * 64 + (p.2.1 - 128)
        if 2048 ≤ n ∧ (n < 55296 ∨ 57343 < n) then
          (utf8DecodeAux fuel p.2.2).map (fun cs => Char.ofNat n :: cs)
        else none)
    else if b < 248 then
      (utf8Take3 bs).bind (fun p =>
        let n := (b - 240) * 262144 + (p.1 - 128) * 4096 + (p.2.1 - 128) * 64 + (p.2.2.1 - 128)
        if 65536 ≤ n ∧ n < 1114112 then
          (utf8DecodeAux fuel p.2.2.2).map (fun cs => Char.ofNat n :: cs)
        else none)
    else none

/-- UTF-8 decoding of a byte list. -/
def utf8DecodeBytes (l : List Nat) : Option (List Char) :=
  utf8DecodeAux l.length l

/-- The txt exporter: the content string is served byte-for-byte as its
UTF-8 encoding; the title plays no role in the txt format. -/
def renderTxt (content : String) (_title : String) : List Nat :=
  (content.data.map (fun c => utf8EncodeCharNat c.toNat)).flatten

/-- Decode exported txt bytes back to a string. -/
def decodeTxtBytes (bytes : List Nat) : Option String :=
  (utf8DecodeBytes bytes).map (fun cs => String.mk cs)

/-! ### Concrete sample states used by witness theorems -/

/-- A session with a loaded document "a.txt", every cache slot and every
input holding stale non-empty values. -/
def sampleLoaded : SessionState where
  full_text := "Lease between X and Y covering the premises."
  uploaded_file_name := some "a.txt"
  summary_result := "old summary"
  takeaways_result := "old takeaways"
  qa_answer_result := "old answer"
  clause_explanation_result := "old explanation"
  entities_result := "old entities"
  obligations_rights_result := "old obligations"
  glossary_result := "old glossary"
  outline_result := "old outline"
  risk_opportunity_result := "old risks"
  comparison_result := "old comparison"
  jurisdiction_result := "old jurisdiction"
  sentiment_result := "old sentiment"
  q_a_input_tab := "What is the rent?"
  clause_select_tab := "old clause"
  compare_input_tab := "other document text"

/-- A session whose document text is empty but with stale slot values. -/
def sampleEmptyDoc : SessionState :=
  { sampleLoaded with full_text := "", uploaded_file_name := none }

/-! ### Frame lemmas for the result slots -/

lemma getResult_setResult_self (s : SessionState) (fid : FeatureId) (v : String) :
    getResult (setResult s fid v) fid = v := by
  cases fid <;> rfl

lemma getResult_setResult_other (s : SessionState) (fid g : FeatureId) (v : String)
    (h : g ≠ fid) : getResult (setResult s fid v) g = getResult s g := by
  cases fid <;> cases g <;> first | rfl | exact absurd rfl h

lemma setResult_full_text (s : SessionState) (fid : FeatureId) (v : String) :
    (setResult s fid v).full_text = s.full_text := by
  cases fid <;> rfl

lemma setResult_uploaded_file_name (s : SessionState) (fid : FeatureId) (v : String) :
    (setResult s fid v).uploaded_file_name = s.uploaded_file_name := by
  cases fid <;> rfl

lemma setResult_q_a_input_tab (s : SessionState) (fid : FeatureId) (v : String) :
    (setResult s fid v).q_a_input_tab = s.q_a_input_tab := by
  cases fid <;> rfl

lemma setResult_clause_select_tab (s : SessionState) (fid : FeatureId) (v : String) :
    (setResult s fid v).clause_select_tab = s.clause_select_tab := by
  cases fid <;> rfl

lemma setResult_compare_input_tab (s : SessionState) (fid : FeatureId) (v : String) :
    (setResult s fid v).compare_input_tab = s.compare_input_tab := by
  cases fid <;> rfl

lemma getResult_loadDocument_new (s : SessionState) (name : String)
    (extracted : Option String) (h : s.uploaded_file_name ≠ some name) (fid : FeatureId) :
    getResult (loadDocument s name extracted) fid = "" := by
  unfold loadDocument
  rw [if_pos (Or.inr h)]
  cases fid <;> rfl

lemma loadDocument_uploaded_file_name_new (s : SessionState) (name : String)
    (extracted : Option String) (h : s.uploaded_file_name ≠ some name) :
    (loadDocument s name extracted).uploaded_file_name = some name := by
  unfold loadDocument
  rw [if_pos (Or.inr h)]

lemma loadDocument_full_text_new (s : SessionState) (name : String)
    (extracted : Option String) (h : s.uploaded_file_name ≠ some name) :
    (loadDocument s name extracted).full_text = extracted.getD "" := by
  unfold loadDocument
  rw [if_pos (Or.inr h)]

/-! ### C1: a new upload resets every result slot and every input -/

/-- C1: for every session state and every upload whose file name differs
from the stored one, `loadDocument` resets all twelve result slots and all
three inputs to empty, regardless of their prior contents. -/
theorem loadDocument_new_resets_all (s : SessionState) (name : String)
    (extracted : Option String) (h : s.uploaded_file_name ≠ some name) :
    (∀ fid, getResult (loadDocument s name extracted) fid = "") ∧
    (loadDocument s name extracted).q_a_input_tab = "" ∧
    (loadDocument s name extracted).clause_select_tab = "" ∧
    (loadDocument s name extracted).compare_input_tab = "" := by
  refine ⟨fun fid => getResult_loadDocument_new s name extracted h fid, ?_, ?_, ?_⟩ <;>
    · unfold loadDocument
      rw [if_pos (Or.inr h)]

theorem loadDocument_new_resets_all_witness :
    (∀ fid, getResult (loadDocument sampleLoaded "b.txt" (some "hello")) fid = "") ∧
    (loadDocument sampleLoaded "b.txt" (some "hello")).q_a_input_tab = "" ∧
    (loadDocument sampleLoaded "b.txt" (some "hello")).clause_select_tab = "" ∧
    (loadDocument sampleLoaded "b.txt" (some "hello")).compare_input_tab = "" :=
  loadDocument_new_resets_all sampleLoaded "b.txt" (some "hello") (by decide)

/-! ### C2: re-upload of the same file name is a no-op -/

/-- C2: when the stored file name equals the uploaded one, `loadDocument`
leaves the whole session state unchanged, whatever the extractor would have
returned (no extraction outcome can influence the state). -/
theorem loadDocument_same_noop (s : SessionState) (name : String)
    (extracted : Option String) (h : s.uploaded_file_name = some name) :
    loadDocument s name extracted = s := by
  unfold loadDocument
  rw [if_neg]
  rintro (h' | h')
  · rw [h] at h'; cases h'
  · exact h' h

theorem loadDocument_same_noop_witness :
    loadDocument sampleLoaded "a.txt" (some "completely different text") = sampleLoaded :=
  loadDocument_same_noop sampleLoaded "a.txt" (some "completely different text") rfl

/-! ### C3: clearing resets everything, unconditionally -/

/-- C3: from every prior session state, `clearDocument` yields empty
document text, a cleared file name, and every result slot and input empty. -/
theorem clearDocument_resets_all (s : SessionState) :
    (clearDocument s).full_text = "" ∧
    (clearDocument s).uploaded_file_name = none ∧
    (∀ fid, getResult (clearDocument s) fid = "") ∧
    (clearDocument s).q_a_input_tab = "" ∧
    (clearDocument s).clause_select_tab = "" ∧
    (clearDocument s).compare_input_tab = "" := by
  refine ⟨rfl, rfl, fun fid => ?_, rfl, rfl, rfl⟩
  cases fid <;> rfl

/-! ### C4: running any feature with no document loaded is rejected -/

/-- C4: with empty document text, `runFeature` signals a precondition
violation for every feature and every engine outcome, and returns the
session state unchanged. -/
theorem runFeature_empty_doc (s : SessionState) (fid : FeatureId)
    (engine : Except String String) (h : s.full_text = "") :
    runFeature s fid engine = (s, some RunError.preconditionViolation) := by
  unfold runFeature
  rw [if_pos h]

theorem runFeature_empty_doc_witness :
    runFeature sampleEmptyDoc FeatureId.executiveSummary (Except.ok "a summary") =
      (sampleEmptyDoc, some RunError.preconditionViolation) :=
  runFeature_empty_doc sampleEmptyDoc FeatureId.executiveSummary
    (Except.ok "a summary") rfl

/-! ### C5: extraction failure still rotates the document identity -/

/-- C5: a new upload whose extraction fails leaves empty document text,
still stores the new file name, still resets every result slot and every
input, and a subsequent upload under a different name is recognised as new
(its name and extracted text are stored). -/
theorem loadDocument_extraction_failure (s : SessionState) (name : String)
    (h : s.uploaded_file_name ≠ some name) :
    (loadDocument s name none).full_text = "" ∧
    (loadDocument s name none).uploaded_file_name = some name ∧
    (∀ fid, getResult (loadDocument s name none) fid = "") ∧
    (loadDocument s name none).q_a_input_tab = "" ∧
    (loadDocument s name none).clause_select_tab = "" ∧
    (loadDocument s name none).compare_input_tab = "" ∧
    (∀ name2 extracted2, name2 ≠ name →
      (loadDocument (loadDocument s name none) name2 extracted2).uploaded_file_name
          = some name2 ∧
      (loadDocument (loadDocument s name none) name2 extracted2).full_text
          = extracted2.getD "") := by
  have hload : (loadDocument s name none).uploaded_file_name = some name :=
    loadDocument_uploaded_file_name_new s name none h
  refine ⟨?_, hload, fun fid => getResult_loadDocument_new s name none h fid,
    ?_, ?_, ?_, fun name2 extracted2 hne => ?_⟩
  · rw [loadDocument_full_text_new s name none h]
    rfl
  · unfold loadDocument
    rw [if_pos (Or.inr h)]
  · unfold loadDocument
    rw [if_pos (Or.inr h)]
  · unfold loadDocument
    rw [if_pos (Or.inr h)]
  · have h2 : (loadDocument s name none).uploaded_file_name ≠ some name2 := by
      rw [hload]
      intro hc
      exact hne (Option.some.inj hc).symm
    exact ⟨loadDocument_uploaded_file_name_new _ name2 extracted2 h2,
      loadDocument_full_text_new _ name2 extracted2 h2⟩

theorem loadDocument_extraction_failure_witness :
    (loadDocument sampleLoaded "scan.pdf" none).full_text = "" ∧
    (loadDocument sampleLoaded "scan.pdf" none).uploaded_file_name = some "scan.pdf" ∧
    (∀ fid, getResult (loadDocument sampleLoaded "scan.pdf" none) fid = "") ∧
    (loadDocument sampleLoaded "scan.pdf" none).q_a_input_tab = "" ∧
    (loadDocument sampleLoaded "scan.pdf" none).clause_select_tab = "" ∧
    (loadDocument sampleLoaded "scan.pdf" none).compare_input_tab = "" ∧
    (∀ name2 extracted2, name2 ≠ "scan.pdf" →
      (loadDocument (loadDocument sampleLoaded "scan.pdf" none) name2
          extracted2).uploaded_file_name = some name2 ∧
      (loadDocument (loadDocument sampleLoaded "scan.pdf" none) name2
          extracted2).full_text = extracted2.getD "") :=
  loadDocument_extraction_failure sampleLoaded "scan.pdf" (by decide)

/-! ### C6: an engine failure empties that slot and touches nothing else -/

/-- C6: when the engine call of a feature run fails, that feature's slot is
set to empty (discarding also any previously ready content), every other
slot keeps its previous value, the document and every input are untouched,
and the failure detail is signalled. -/
theorem runFeature_engine_error (s : SessionState) (fid : FeatureId) (detail : String)
    (h1 : s.full_text ≠ "") (h2 : featureGate s fid = true) :
    getResult (runFeature s fid (Except.error detail)).1 fid = "" ∧
    (∀ g, g ≠ fid →
      getResult (runFeature s fid (Except.error detail)).1 g = getResult s g) ∧
    (runFeature s fid (Except.error detail)).1.full_text = s.full_text ∧
    (runFeature s fid (Except.error detail)).1.uploaded_file_name
        = s.uploaded_file_name ∧
    (runFeature s fid (Except.error detail)).1.q_a_input_tab = s.q_a_input_tab ∧
    (runFeature s fid (Except.error detail)).1.clause_select_tab
        = s.clause_select_tab ∧
    (runFeature s fid (Except.error detail)).1.compare_input_tab
        = s.compare_input_tab ∧
    (runFeature s fid (Except.error detail)).2
        = some (RunError.engineFailed detail) := by
  have hrun : runFeature s fid (Except.error detail)
      = (setResult s fid "", some (RunError.engineFailed detail)) := by
    unfold runFeature
    rw [if_neg h1, if_pos h2]
  rw [hrun]
  exact ⟨getResult_setResult_self s fid "",
    fun g hg => getResult_setResult_other s fid g "" hg,
    setResult_full_text s fid "",
    setResult_uploaded_file_name s fid "",
    setResult_q_a_input_tab s fid "",
    setResult_clause_select_tab s fid "",
    setResult_compare_input_tab s fid "",
    rfl⟩

theorem runFeature_engine_error_witness :
    getResult (runFeature sampleLoaded FeatureId.qaAnswer
        (Except.error "429 rate limit")).1 FeatureId.qaAnswer = "" ∧
    (∀ g, g ≠ FeatureId.qaAnswer →
      getResult (runFeature sampleLoaded FeatureId.qaAnswer
          (Except.error "429 rate limit")).1 g = getResult sampleLoaded g) ∧
    (runFeature sampleLoaded FeatureId.qaAnswer
        (Except.error "429 rate limit")).1.full_text = sampleLoaded.full_text ∧
    (runFeature sampleLoaded FeatureId.qaAnswer
        (Except.error "429 rate limit")).1.uploaded_file_name
        = sampleLoaded.uploaded_file_name ∧
    (runFeature sampleLoaded FeatureId.qaAnswer
        (Except.error "429 rate limit")).1.q_a_input_tab
        = sampleLoaded.q_a_input_tab ∧
    (runFeature sampleLoaded FeatureId.qaAnswer
        (Except.error "429 rate limit")).1.clause_select_tab
        = sampleLoaded.clause_select_tab ∧
    (runFeature sampleLoaded FeatureId.qaAnswer
        (Except.error "429 rate limit")).1.compare_input_tab
        = sampleLoaded.compare_input_tab ∧
    (runFeature sampleLoaded FeatureId.qaAnswer
        (Except.error "429 rate limit")).2
        = some (RunError.engineFailed "429 rate limit") :=
  runFeature_engine_error sampleLoaded FeatureId.qaAnswer "429 rate limit"
    (by decide) (by decide)

/-! ### C7: Q&A with an empty question is rejected without touching state -/

/-- C7: for every session state with an empty Q&A question, running the
qa-answer feature signals a precondition violation and leaves the whole
session state unchanged, for every engine outcome. -/
theorem runFeature_qa_empty_input (s : SessionState) (engine : Except String String)
    (h : s.q_a_input_tab = "") :
    runFeature s FeatureId.qaAnswer engine = (s, some RunError.preconditionViolation) := by
  unfold runFeature
  by_cases hft : s.full_text = ""
  · rw [if_pos hft]
  · rw [if_neg hft, if_neg]
    simp [featureGate, h]

theorem runFeature_qa_empty_input_witness :
    runFeature { sampleLoaded with q_a_input_tab := "" } FeatureId.qaAnswer
        (Except.ok "an answer")
      = ({ sampleLoaded with q_a_input_tab := "" },
         some RunError.preconditionViolation) :=
  runFeature_qa_empty_input { sampleLoaded with q_a_input_tab := "" }
    (Except.ok "an answer") rfl

/-! ### UTF-8 round-trip lemmas -/

lemma char_toNat_valid (c : Char) :
    c.toNat < 55296 ∨ (57343 < c.toNat ∧ c.toNat < 1114112) := by
  rcases c.valid with h | ⟨h1, h2⟩
  · exact Or.inl (UInt32.toNat_lt_of_lt (by decide) h)
  · exact Or.inr ⟨UInt32.lt_toNat_of_lt (by decide) h1, UInt32.toNat_lt_of_lt (by decide) h2⟩

lemma utf8DecodeAux_encode_cons (c : Char) (fuel : Nat) (rest : List Nat) :
    utf8DecodeAux (fuel + 1) (utf8EncodeCharNat c.toNat ++ rest)
      = (utf8DecodeAux fuel rest).map (fun cs => c :: cs) := by
  have hv := char_toNat_valid c
  by_cases h1 : c.toNat < 128
  · have he : utf8EncodeCharNat c.toNat = [c.toNat] := by
      unfold utf8EncodeCharNat; rw [if_pos h1]
    rw [he, List.cons_append, List.nil_append]
    simp only [utf8DecodeAux]
    rw [if_pos h1]
    simp only [Char.ofNat_toNat]
  · by_cases h2 : c.toNat < 2048
    · have he : utf8EncodeCharNat c.toNat = [192 + c.toNat / 64, 128 + c.toNat % 64] := by
        unfold utf8EncodeCharNat; rw [if_neg h1, if_pos h2]
      have ha : ¬(192 + c.toNat / 64 < 128) := by omega
      have hb : ¬(192 + c.toNat / 64 < 192) := by omega
      have hc : 192 + c.toNat / 64 < 224 := by omega
      have ht : utf8Take1 ((128 + c.toNat % 64) :: rest) = some (128 + c.toNat % 64, rest) := by
        simp only [utf8Take1]
        rw [if_pos (by omega)]
      have hnn : (192 + c.toNat / 64 - 192) * 64 + (128 + c.toNat % 64 - 128) = c.toNat := by
        omega
      have h128 : 128 ≤ c.toNat := by omega
      rw [he]
      simp only [List.cons_append, List.nil_append]
      simp only [utf8DecodeAux]
      rw [if_neg ha, if_neg hb, if_pos hc, ht]
      simp only [Option.some_bind, hnn]
      rw [if_pos h128]
      simp only [Char.ofNat_toNat]
    · by_cases h3 : c.toNat < 65536
      · have he : utf8EncodeCharNat c.toNat
            = [224 + c.toNat / 4096, 128 + c.toNat / 64 % 64, 128 + c.toNat % 64] := by
          unfold utf8EncodeCharNat; rw [if_neg h1, if_neg h2, if_pos h3]
        have ha : ¬(224 + c.toNat / 4096 < 128) := by omega
        have hb : ¬(224 + c.toNat / 4096 < 192) := by omega
        have hc : ¬(224 + c.toNat / 4096 < 224) := by omega
        have hd : 224 + c.toNat / 4096 < 240 := by omega
        have ht1 : utf8Take1 ((128 + c.toNat % 64) :: rest)
            = some (128 + c.toNat % 64, rest) := by
          simp only [utf8Take1]
          rw [if_pos (by omega)]
        have ht : utf8Take2 ((128 + c.toNat / 64 % 64) :: (128 + c.toNat % 64) :: rest)
            = some (128 + c.toNat / 64 % 64, 128 + c.toNat % 64, rest) := by
          simp only [utf8Take2]
          rw [if_pos (by omega), ht1]
          rfl
        have hnn : (224 + c.toNat / 4096 - 224) * 4096 + (128 + c.toNat / 64 % 64 - 128) * 64
            + (128 + c.toNat % 64 - 128) = c.toNat := by omega
        have hrange : 2048 ≤ c.toNat ∧ (c.toNat < 55296 ∨ 57343 < c.toNat) := by omega
        rw [he]
        simp only [List.cons_append, List.nil_append]
        simp only [utf8DecodeAux]
        rw [if_neg ha, if_neg hb, if_neg hc, if_pos hd, ht]
        simp only [Option.some_bind, hnn]
        rw [if_pos hrange]
        simp only [Char.ofNat_toNat]
      · have h4 : c.toNat < 1114112 := by omega
        have he : utf8EncodeCharNat c.toNat
            = [240 + c.toNat / 262144, 128 + c.toNat / 4096 % 64, 128 + c.toNat / 64 % 64,
               128 + c.toNat % 64] := by
          unfold utf8EncodeCharNat; rw [if_neg h1, if_neg h2, if_neg h3]
        have ha : ¬(240 + c.toNat / 262144 < 128) := by omega
        have hb : ¬(240 + c.toNat / 262144 < 192) := by omega
        have hc : ¬(240 + c.toNat / 262144 < 224) := by omega
        have hd : ¬(240 + c.toNat / 262144 < 240) := by omega
        have he2 : 240 + c.toNat / 262144 < 248 := by omega
        have ht1 : utf8Take1 ((128 + c.toNat % 64) :: rest)
            = some (128 + c.toNat % 64, rest) := by
          simp only [utf8Take1]
          rw [if_pos (by omega)]
        have ht2 : utf8Take2 ((128 + c.toNat / 64 % 64) :: (128 + c.toNat % 64) :: rest)
            = some (128 + c.toNat / 64 % 64, 128 + c.toNat % 64, rest) := by
          simp only [utf8Take2]
          rw [if_pos (by omega), ht1]
          rfl
        have ht : utf8Take3 ((128 + c.toNat / 4096 % 64) :: (128 + c.toNat / 64 % 64)
              :: (128 + c.toNat % 64) :: rest)
            = some (128 + c.toNat / 4096 % 64, 128 + c.toNat / 64 % 64, 128 + c.toNat % 64,
                rest) := by
          simp only [utf8Take3]
          rw [if_pos (by omega), ht2]
          rfl
        have hnn : (240 + c.toNat / 262144 - 240) * 262144
            + (128 + c.toNat / 4096 % 64 - 128) * 4096
            + (128 + c.toNat / 64 % 64 - 128) * 64 + (128 + c.toNat % 64 - 128) = c.toNat := by
          omega
        have hrange : 65536 ≤ c.toNat ∧ c.toNat < 1114112 := by omega
        rw [he]
        simp only [List.cons_append, List.nil_append]
        simp only [utf8DecodeAux]
        rw [if_neg ha, if_neg hb, if_neg hc, if_neg hd, if_pos he2, ht]
        simp only [Option.some_bind, hnn]
        rw [if_pos hrange]
        simp only [Char.ofNat_toNat]

lemma utf8DecodeAux_flatten (l : List Char) :
    ∀ fuel, l.length ≤ fuel →
      utf8DecodeAux fuel ((l.map (fun c => utf8EncodeCharNat c.toNat)).flatten) = some l := by
  induction l with
  | nil =>
      intro fuel _
      cases fuel <;> rfl
  | cons c t ih =>
      intro fuel hle
      obtain ⟨f, rfl⟩ : ∃ f, fuel = f + 1 := by
        cases fuel
        · simp at hle
        · exact ⟨_, rfl⟩
      rw [List.map_cons, List.flatten_cons, utf8DecodeAux_encode_cons,
        ih f (by simpa using hle)]
      rfl

lemma utf8EncodeCharNat_length_pos (n : Nat) : 1 ≤ (utf8EncodeCharNat n).length := by
  unfold utf8EncodeCharNat
  split_ifs <;> simp

lemma length_le_encoded_length (l : List Char) :
    l.length ≤ ((l.map (fun c => utf8EncodeCharNat c.toNat)).flatten).length := by
  induction l with
  | nil => simp
  | cons c t ih =>
      rw [List.map_cons, List.flatten_cons, List.length_append, List.length_cons]
      have := utf8EncodeCharNat_length_pos c.toNat
      omega

/-! ### C9: txt export round trip -/

/-- C9: for every content string and every title, rendering in txt format
and decoding the produced bytes recovers exactly the content string. -/
theorem renderTxt_roundtrip (content title : String) :
    decodeTxtBytes (renderTxt content title) = some content := by
  unfold decodeTxtBytes renderTxt utf8DecodeBytes
  rw [utf8DecodeAux_flatten content.data _ (length_le_encoded_length content.data)]
  rfl

/-! ### C10: the clause candidate list -/

/-- C10: the clause candidates offered for clause explanation are exactly
the whitespace-stripped newline-separated segments of the document text
whose stripped length exceeds 50 characters, in document order; and when
that list is empty the clause-explanation feature cannot run (the
transition signals a precondition violation and leaves state unchanged,
whatever the engine would have answered). -/
theorem clauses_characterization (t : String) :
    clauses t
      = ((splitLines t.data).map (fun p => String.mk (pyStrip p))).filter
          (fun c => 50 < c.length) ∧
    (∀ s engine, s.full_text = t → clauses t = [] →
      runFeature s FeatureId.clauseExplanation engine
        = (s, some RunError.preconditionViolation)) := by
  constructor
  · unfold clauses
    rw [List.filter_map]
    rfl
  · intro s engine hs hc
    unfold runFeature
    by_cases hft : s.full_text = ""
    · rw [if_pos hft]
    · rw [if_neg hft, if_neg]
      rw [featureGate, hs, hc]
      decide

theorem clauses_characterization_witness :
    runFeature { sampleLoaded with full_text := "short line" }
        FeatureId.clauseExplanation (Except.ok "an explanation")
      = ({ sampleLoaded with full_text := "short line" },
         some RunError.preconditionViolation) :=
  (clauses_characterization "short line").2
    { sampleLoaded with full_text := "short line" }
    (Except.ok "an explanation") rfl (by decide)

end SmartLegalExplainer
